import Mathlib

/-!
Shallow embedding of the statistical core of a temperature analysis
application: a centered rolling mean/std baseline engine, band-based
anomaly detection, seasonal aggregation, and the evaluation of a single
current reading against a seasonal profile.

Numbers are modelled exactly: temperatures are rationals, the undefined
(NaN) results of degenerate statistics are modelled with Option (none),
and the square root in the standard deviation lives in the reals.
-/

namespace TemperatureAnalysis

/-- The four season labels attached to observations. -/
inductive Season where
  | winter
  | spring
  | summer
  | autumn
  deriving DecidableEq, Repr, Fintype

/-- One input row: a timestamped temperature observation for one city. -/
structure Obs where
  timestamp : ℕ
  city : String
  temperature : ℚ
  season : Season
  deriving DecidableEq, Repr

/-- Ascending comparison on the timestamp index, used by the internal sort. -/
def tsLE (a b : Obs) : Prop := a.timestamp ≤ b.timestamp

/-- Strict ascending comparison on the timestamp index. -/
def tsLT (a b : Obs) : Prop := a.timestamp < b.timestamp

instance : DecidableRel tsLE := fun a b => inferInstanceAs (Decidable (a.timestamp ≤ b.timestamp))

instance : IsTotal Obs tsLE := ⟨fun a b => Nat.le_total a.timestamp b.timestamp⟩

instance : IsTrans Obs tsLE := ⟨fun _ _ _ => Nat.le_trans⟩

instance : IsAntisymm Obs tsLT :=
  ⟨fun _ _ h1 h2 => absurd (Nat.lt_trans h1 h2) (Nat.lt_irrefl _)⟩

/-- The internal ascending sort of the rows by the timestamp index
(city_data.sort_index()). -/
def sortByTime (l : List Obs) : List Obs := List.insertionSort tsLE l

/-- Start index of the centered rolling window at position i: the library
fixed-window indexer with center=True uses the offset (W-1)/2 and takes
start = i + 1 + offset - W, clipped at 0. -/
def winStart (W i : ℕ) : ℕ := i + 1 + (W - 1) / 2 - W

/-- One past the last index of the centered rolling window at position i:
end = i + 1 + offset, clipped at the series length. -/
def winEnd (N W i : ℕ) : ℕ := min N (i + 1 + (W - 1) / 2)

/-- The values inside the centered rolling window at position i. -/
def windowSlice (ts : List ℚ) (W i : ℕ) : List ℚ :=
  (ts.drop (winStart W i)).take (winEnd ts.length W i - winStart W i)

/-- Mean of a list of values; undefined (NaN) on the empty list. -/
def listMean (xs : List ℚ) : Option ℚ :=
  if xs.length = 0 then none else some (xs.sum / xs.length)

/-- Sample variance (N-1 denominator); undefined (NaN) with fewer than two
values, matching the library convention for the std with ddof = 1. -/
def sampleVar (xs : List ℚ) : Option ℚ :=
  if xs.length < 2 then none
  else some ((xs.map (fun x => (x - xs.sum / xs.length) ^ 2)).sum / ((xs.length : ℚ) - 1))

/-- Sample standard deviation: the square root of the sample variance;
undefined (NaN) with fewer than two values. -/
noncomputable def sampleStd (xs : List ℚ) : Option ℝ :=
  Option.map (fun v : ℚ => Real.sqrt ((v : ℚ) : ℝ)) (sampleVar xs)

/-- An observation extended with the rolling statistics columns. -/
structure BaselinedObs where
  obs : Obs
  rolling_mean : Option ℚ
  rolling_std : Option ℝ
  upper_bound : Option ℝ
  lower_bound : Option ℝ

/-- Build one baselined row: the bounds are mean plus/minus two standard
deviations, an undefined (NaN) std propagating into undefined bounds. -/
noncomputable def mkBaselined (o : Obs) (rm : Option ℚ) (rs : Option ℝ) : BaselinedObs :=
  ⟨o, rm, rs,
    match rm, rs with
    | some m, some sd => some ((m : ℝ) + 2 * sd)
    | _, _ => none,
    match rm, rs with
    | some m, some sd => some ((m : ℝ) - 2 * sd)
    | _, _ => none⟩

/-- The temperature column after the internal sort. -/
def sortedTemps (s : List Obs) : List ℚ := (sortByTime s).map (fun o => o.temperature)

/-- calculate_moving_statistics: sort the rows by timestamp, then compute
per row the centered rolling mean and sample std of the temperature with
window size `window` and min_periods 1, and the bounds mean ± 2·std. -/
noncomputable def calculate_moving_statistics (city_data : List Obs) (window : ℕ) :
    List BaselinedObs :=
  (sortByTime city_data).enum.map (fun p =>
    mkBaselined p.2
      (listMean (windowSlice (sortedTemps city_data) window p.1))
      (sampleStd (windowSlice (sortedTemps city_data) window p.1)))

/-- Comparison x > bound under the NaN convention: any comparison against
an undefined bound is false. -/
def nanGT (x : ℝ) (b : Option ℝ) : Prop :=
  match b with
  | some u => u < x
  | none => False

/-- Comparison x < bound under the NaN convention: any comparison against
an undefined bound is false. -/
def nanLT (x : ℝ) (b : Option ℝ) : Prop :=
  match b with
  | some u => x < u
  | none => False

/-- A baselined observation extended with the anomaly flag. -/
structure AnomalyObs extends BaselinedObs where
  anomaly : Prop

/-- detect_anomalies: flag a row when its temperature exceeds the upper
bound or lies below the lower bound, comparisons with NaN bounds being
false; every other column is carried over unchanged. -/
noncomputable def detect_anomalies (city_data : List BaselinedObs) : List AnomalyObs :=
  city_data.map (fun r =>
    ⟨r, nanGT (r.obs.temperature : ℝ) r.upper_bound
        ∨ nanLT (r.obs.temperature : ℝ) r.lower_bound⟩)

/-- The temperatures of the rows carrying the selected season label
(season_data = city_data[city_data season == current_season]). -/
def season_data (city_data : List Obs) (s : Season) : List ℚ :=
  (city_data.filter (fun o => decide (o.season = s))).map (fun o => o.temperature)

/-- Round half to even at two decimals, as the dataframe round(2) does on
the aggregated statistics. -/
def round2 (x : ℚ) : ℚ :=
  (if x * 100 - ⌊x * 100⌋ < 1 / 2 then (⌊x * 100⌋ : ℚ)
   else if 1 / 2 < x * 100 - ⌊x * 100⌋ then (⌊x * 100⌋ : ℚ) + 1
   else if ⌊x * 100⌋ % 2 = 0 then (⌊x * 100⌋ : ℚ) else (⌊x * 100⌋ : ℚ) + 1) / 100

/-- Round half to even at two decimals on the real-valued std column. -/
noncomputable def round2R (x : ℝ) : ℝ :=
  (if x * 100 - ⌊x * 100⌋ < 1 / 2 then (⌊x * 100⌋ : ℝ)
   else if 1 / 2 < x * 100 - ⌊x * 100⌋ then (⌊x * 100⌋ : ℝ) + 1
   else if ⌊x * 100⌋ % 2 = 0 then (⌊x * 100⌋ : ℝ) else (⌊x * 100⌋ : ℝ) + 1) / 100

/-- One aggregated record per season: descriptive statistics of the
temperatures of that season, rounded to two decimals. -/
structure SeasonalProfile where
  mean : ℚ
  std : Option ℝ
  min : ℚ
  max : ℚ
  count : ℕ

/-- seasonal_stats: group the rows by season and aggregate mean, sample
std, min, max and count of the temperature, rounded to two decimals; a
season with no rows produces no entry. -/
noncomputable def seasonal_stats (city_data : List Obs) (s : Season) : Option SeasonalProfile :=
  match season_data city_data s with
  | [] => none
  | t :: ts =>
    some ⟨round2 ((t :: ts).sum / ((t :: ts).length : ℚ)),
      (sampleStd (t :: ts)).map round2R,
      round2 (ts.foldl min t),
      round2 (ts.foldl max t),
      (t :: ts).length⟩

/-- The reportable failure of the current-reading evaluation. -/
inductive FailureKind where
  | NoSeasonalData
  deriving DecidableEq, Repr

/-- The result record of evaluating one current reading. -/
structure CurrentReadingEvaluation where
  reading : ℝ
  season : Season
  seasonal_mean : ℚ
  seasonal_std : Option ℝ
  lower_bound : Option ℝ
  upper_bound : Option ℝ
  is_normal : Prop

/-- The chained comparison lower <= reading <= upper, comparisons with a
NaN bound being false. -/
def chainLE (lb : Option ℝ) (r : ℝ) (ub : Option ℝ) : Prop :=
  match lb, ub with
  | some l, some u => l ≤ r ∧ r ≤ u
  | _, _ => False

/-- evaluateReading: select the season rows; with no data report
NoSeasonalData as a value; otherwise the reading is normal when it lies
within mean ± 2·std with inclusive bounds. -/
noncomputable def evaluateReading (city_data : List Obs) (sn : Season) (reading : ℝ) :
    Except FailureKind CurrentReadingEvaluation :=
  if 0 < (season_data city_data sn).length then
    let mean_temp : ℚ := (season_data city_data sn).sum / ((season_data city_data sn).length : ℚ)
    let std_temp : Option ℝ := sampleStd (season_data city_data sn)
    let lower_bound : Option ℝ := std_temp.map (fun st => (mean_temp : ℝ) - 2 * st)
    let upper_bound : Option ℝ := std_temp.map (fun st => (mean_temp : ℝ) + 2 * st)
    Except.ok ⟨reading, sn, mean_temp, std_temp, lower_bound, upper_bound,
      chainLE lower_bound reading upper_bound⟩
  else Except.error FailureKind.NoSeasonalData

/-- The window described by the spec text: the index span
[i - floor(W/2), i + ceil(W/2) - 1], clipped to the series bounds. -/
def specCenteredWindow (ts : List ℚ) (W i : ℕ) : List ℚ :=
  (ts.drop (i - W / 2)).take (min (ts.length - 1) (i + (W + 1) / 2 - 1) + 1 - (i - W / 2))

/-- The sort does not change the number of rows. -/
theorem sortByTime_length (s : List Obs) : (sortByTime s).length = s.length :=
  (List.perm_insertionSort tsLE s).length_eq

/-- The sorted temperature column has one entry per row. -/
theorem sortedTemps_length (s : List Obs) : (sortedTemps s).length = s.length := by
  rw [sortedTemps, List.length_map, sortByTime_length]

/-- The baseline engine returns one row per input row. -/
theorem calculate_moving_statistics_length (s : List Obs) (W : ℕ) :
    (calculate_moving_statistics s W).length = s.length := by
  rw [calculate_moving_statistics, List.length_map, List.enum_length, sortByTime_length]

/-- The i-th output row of the baseline engine, in terms of the i-th sorted
input row and the centered window at i. -/
theorem calculate_moving_statistics_get (s : List Obs) (W i : ℕ)
    (h' : i < (sortByTime s).length) (h : i < (calculate_moving_statistics s W).length) :
    (calculate_moving_statistics s W).get ⟨i, h⟩
      = mkBaselined ((sortByTime s).get ⟨i, h'⟩)
          (listMean (windowSlice (sortedTemps s) W i))
          (sampleStd (windowSlice (sortedTemps s) W i)) := by
  simp [calculate_moving_statistics, List.get_eq_getElem, List.getElem_map, List.getElem_enum]

/-- Optional-lookup version: the rolling columns of the i-th output row. -/
theorem calculate_moving_statistics_getElem? (s : List Obs) (W i : ℕ) (hi : i < s.length) :
    (calculate_moving_statistics s W)[i]?
      = some (mkBaselined ((sortByTime s).get ⟨i, by rw [sortByTime_length]; exact hi⟩)
          (listMean (windowSlice (sortedTemps s) W i))
          (sampleStd (windowSlice (sortedTemps s) W i))) := by
  have h : i < (calculate_moving_statistics s W).length := by
    rw [calculate_moving_statistics_length]; exact hi
  rw [List.getElem?_eq_getElem h]
  exact congrArg some
    (calculate_moving_statistics_get s W i (by rw [sortByTime_length]; exact hi) h)

/-- The library centered window at i is exactly the index span the spec
describes, [i - floor(W/2), i + ceil(W/2) - 1] clipped to the bounds. -/
theorem windowSlice_eq_specCenteredWindow (ts : List ℚ) (W i : ℕ) (hW : 1 ≤ W) :
    windowSlice ts W i = specCenteredWindow ts W i := by
  rcases Nat.eq_zero_or_pos ts.length with h0 | h0
  · have hnil : ts = [] := List.length_eq_zero.mp h0
    subst hnil
    simp [windowSlice, specCenteredWindow]
  · have h1 : winStart W i = i - W / 2 := by
      unfold winStart; omega
    have h2 : winEnd ts.length W i - winStart W i
        = min (ts.length - 1) (i + (W + 1) / 2 - 1) + 1 - (i - W / 2) := by
      unfold winStart winEnd; omega
    rw [windowSlice, specCenteredWindow, h2, h1]

/-- Claim C1: for every series and every window size W ≥ 1, the baseline
engine computes the rolling mean and the rolling standard deviation at
each index i over exactly the centered index window
[i - floor(W/2), i + ceil(W/2) - 1], clipped to the series bounds. -/
theorem C1_rolling_stats_over_centered_window (s : List Obs) (W i : ℕ)
    (hW : 1 ≤ W) (hi : i < s.length) :
    ((calculate_moving_statistics s W)[i]?).map (fun r => (r.rolling_mean, r.rolling_std))
      = some (listMean (specCenteredWindow (sortedTemps s) W i),
          sampleStd (specCenteredWindow (sortedTemps s) W i)) := by
  rw [calculate_moving_statistics_getElem? s W i hi,
    windowSlice_eq_specCenteredWindow _ _ _ hW]
  rfl

/-- Witness for C1 at a concrete two-row series with window size 3. -/
theorem C1_witness :
    ((calculate_moving_statistics
        [⟨0, "A", 1, Season.winter⟩, ⟨1, "A", 2, Season.winter⟩] 3)[0]?).map
          (fun r => (r.rolling_mean, r.rolling_std))
      = some (listMean (specCenteredWindow
            (sortedTemps [⟨0, "A", 1, Season.winter⟩, ⟨1, "A", 2, Season.winter⟩]) 3 0),
          sampleStd (specCenteredWindow
            (sortedTemps [⟨0, "A", 1, Season.winter⟩, ⟨1, "A", 2, Season.winter⟩]) 3 0)) :=
  C1_rolling_stats_over_centered_window
    [⟨0, "A", 1, Season.winter⟩, ⟨1, "A", 2, Season.winter⟩] 3 0
    (by norm_num) (by norm_num)

/-- With window size at least one, the centered window at an in-range
position is never empty (this is the min_periods = 1 policy). -/
theorem windowSlice_length_pos (ts : List ℚ) (W i : ℕ) (hW : 1 ≤ W) (hi : i < ts.length) :
    0 < (windowSlice ts W i).length := by
  rw [windowSlice, List.length_take, List.length_drop]
  unfold winStart winEnd
  omega

/-- Window values are values of the series. -/
theorem mem_of_mem_windowSlice (ts : List ℚ) (W i : ℕ) (x : ℚ)
    (hx : x ∈ windowSlice ts W i) : x ∈ ts :=
  List.Sublist.mem hx ((List.take_sublist _ _).trans (List.drop_sublist _ _))

/-- The mean of a nonempty constant list is that constant. -/
theorem listMean_const (xs : List ℚ) (c : ℚ) (hne : 0 < xs.length)
    (hc : ∀ x ∈ xs, x = c) : listMean xs = some c := by
  have hl : (xs.length : ℚ) ≠ 0 := Nat.cast_ne_zero.mpr (by omega)
  rw [listMean, if_neg (by omega), List.sum_eq_card_nsmul xs c hc]
  congr 1
  rw [nsmul_eq_mul, mul_comm, mul_div_assoc, div_self hl, mul_one]

/-- The sample variance of a constant list of two or more values is zero. -/
theorem sampleVar_const (xs : List ℚ) (c : ℚ) (h2 : 2 ≤ xs.length)
    (hc : ∀ x ∈ xs, x = c) : sampleVar xs = some 0 := by
  have hl : (xs.length : ℚ) ≠ 0 := Nat.cast_ne_zero.mpr (by omega)
  rw [sampleVar, if_neg (by omega)]
  congr 1
  have hsum : (xs.map (fun x => (x - xs.sum / xs.length) ^ 2)).sum = 0 := by
    apply List.sum_eq_zero
    intro y hy
    rcases List.mem_map.mp hy with ⟨x, hx, rfl⟩
    have hmean : xs.sum / (xs.length : ℚ) = c := by
      rw [List.sum_eq_card_nsmul xs c hc, nsmul_eq_mul, mul_comm, mul_div_assoc,
        div_self hl, mul_one]
    rw [hc x hx, hmean]
    ring
  rw [hsum, zero_div]

/-- On a nonempty constant window the sample std is zero, or undefined on
a single-point window. -/
theorem sampleStd_const_cases (w : List ℚ) (c : ℚ) (hwc : ∀ x ∈ w, x = c) :
    sampleStd w = some 0 ∨ sampleStd w = none := by
  by_cases h2 : 2 ≤ w.length
  · left
    rw [sampleStd, sampleVar_const w c h2 hwc]
    simp
  · right
    rw [sampleStd, sampleVar, if_pos (by omega)]
    rfl

/-- A row whose temperature equals its rolling mean and whose rolling std
is zero or undefined is not flagged by the band comparison. -/
theorem not_anomaly_of_zero_std (o : Obs) (c : ℚ) (rm : Option ℚ) (rs : Option ℝ)
    (ho : o.temperature = c) (hm : rm = some c) (hs : rs = some 0 ∨ rs = none) :
    ¬ (nanGT (o.temperature : ℝ) (mkBaselined o rm rs).upper_bound
       ∨ nanLT (o.temperature : ℝ) (mkBaselined o rm rs).lower_bound) := by
  subst hm ho
  rcases hs with rfl | rfl
  · simp [mkBaselined, nanGT, nanLT]
  · simp [mkBaselined, nanGT, nanLT]

/-- Every temperature in the sorted column comes from an input row. -/
theorem sortedTemps_const (s : List Obs) (c : ℚ) (hc : ∀ o ∈ s, o.temperature = c) :
    ∀ x ∈ sortedTemps s, x = c := by
  intro x hx
  rcases List.mem_map.mp hx with ⟨o, ho, rfl⟩
  exact hc o ((List.perm_insertionSort tsLE s).subset ho)

/-- Claim C2: on a constant-temperature series (all values c) with any
window size W ≥ 1, every row gets rolling mean c, rolling std zero (or the
undefined single-point convention), hence bounds both equal to c (or both
undefined), and the anomaly detector flags no row of the series. -/
theorem C2_constant_series (s : List Obs) (c : ℚ) (W i : ℕ) (hW : 1 ≤ W)
    (hc : ∀ o ∈ s, o.temperature = c) (hi : i < s.length) :
    ((calculate_moving_statistics s W)[i]?).map (fun r => r.rolling_mean) = some (some c)
    ∧ (((calculate_moving_statistics s W)[i]?).map
          (fun r => (r.rolling_std, r.upper_bound, r.lower_bound))
        = some (some 0, some (c : ℝ), some (c : ℝ))
      ∨ ((calculate_moving_statistics s W)[i]?).map
          (fun r => (r.rolling_std, r.upper_bound, r.lower_bound))
        = some (none, none, none))
    ∧ ∀ a ∈ detect_anomalies (calculate_moving_statistics s W), ¬ a.anomaly := by
  have hct : ∀ x ∈ sortedTemps s, x = c := sortedTemps_const s c hc
  have hmean : ∀ j, j < s.length → listMean (windowSlice (sortedTemps s) W j) = some c := by
    intro j hj
    refine listMean_const _ c (windowSlice_length_pos _ W j hW ?_) ?_
    · rw [sortedTemps_length]; exact hj
    · intro x hx
      exact hct x (mem_of_mem_windowSlice _ _ _ _ hx)
  have hstd : ∀ j, sampleStd (windowSlice (sortedTemps s) W j) = some 0
      ∨ sampleStd (windowSlice (sortedTemps s) W j) = none := by
    intro j
    refine sampleStd_const_cases _ c ?_
    intro x hx
    exact hct x (mem_of_mem_windowSlice _ _ _ _ hx)
  refine ⟨?_, ?_, ?_⟩
  · rw [calculate_moving_statistics_getElem? s W i hi]
    simp [mkBaselined, hmean i hi]
  · rw [calculate_moving_statistics_getElem? s W i hi]
    rcases hstd i with h | h
    · left
      simp [mkBaselined, hmean i hi, h]
    · right
      simp [mkBaselined, hmean i hi, h]
  · intro a ha
    rcases List.mem_map.mp ha with ⟨r, hr, rfl⟩
    rcases List.mem_iff_get.mp hr with ⟨⟨j, hj⟩, rfl⟩
    have hjs : j < s.length := by
      rw [calculate_moving_statistics_length] at hj
      exact hj
    have hj' : j < (sortByTime s).length := by
      rw [sortByTime_length]
      exact hjs
    rw [calculate_moving_statistics_get s W j hj' hj]
    have ho : ((sortByTime s).get ⟨j, hj'⟩).temperature = c :=
      hc _ ((List.perm_insertionSort tsLE s).subset (List.get_mem (sortByTime s) j hj'))
    exact not_anomaly_of_zero_std _ c _ _ ho (hmean j hjs) (hstd j)

/-- Witness for C2 at a concrete constant two-row series with window 2. -/
theorem C2_witness :
    ((calculate_moving_statistics
        [⟨0, "A", 5, Season.winter⟩, ⟨1, "A", 5, Season.winter⟩] 2)[0]?).map
          (fun r => r.rolling_mean) = some (some 5)
    ∧ (((calculate_moving_statistics
        [⟨0, "A", 5, Season.winter⟩, ⟨1, "A", 5, Season.winter⟩] 2)[0]?).map
          (fun r => (r.rolling_std, r.upper_bound, r.lower_bound))
        = some (some 0, some ((5 : ℚ) : ℝ), some ((5 : ℚ) : ℝ))
      ∨ ((calculate_moving_statistics
        [⟨0, "A", 5, Season.winter⟩, ⟨1, "A", 5, Season.winter⟩] 2)[0]?).map
          (fun r => (r.rolling_std, r.upper_bound, r.lower_bound))
        = some (none, none, none))
    ∧ ∀ a ∈ detect_anomalies (calculate_moving_statistics
        [⟨0, "A", 5, Season.winter⟩, ⟨1, "A", 5, Season.winter⟩] 2), ¬ a.anomaly :=
  C2_constant_series [⟨0, "A", 5, Season.winter⟩, ⟨1, "A", 5, Season.winter⟩] 5 2 0
    (by norm_num) (by decide) (by norm_num)

/-- Once the window covers at least 2N-1 positions, every centered window
is the full series. -/
theorem windowSlice_of_big (ts : List ℚ) (W i : ℕ) (hi : i < ts.length)
    (hW : 2 * ts.length - 1 ≤ W) : windowSlice ts W i = ts := by
  have h1 : winStart W i = 0 := by unfold winStart; omega
  have h2 : winEnd ts.length W i = ts.length := by unfold winEnd; omega
  rw [windowSlice, h1, h2]
  simp

/-- The two-row series used to refute the clamping law. -/
def c3series : List Obs := [⟨0, "A", 0, Season.winter⟩, ⟨1, "A", 10, Season.winter⟩]

/-- Counterexample to claim C3 as stated: on a two-row series, window size
3 (larger than the length 2) gives a different output than window size 2,
because the centered indexer offset (W-1)/2 grows with W. -/
theorem C3_counterexample :
    ¬ (calculate_moving_statistics c3series 3
        = calculate_moving_statistics c3series c3series.length) := by
  intro h
  have hcongr : ((calculate_moving_statistics c3series 3)[0]?).map (fun r => r.rolling_mean)
      = ((calculate_moving_statistics c3series c3series.length)[0]?).map
          (fun r => r.rolling_mean) := by
    rw [h]
  rw [calculate_moving_statistics_getElem? c3series 3 0 (by norm_num [c3series]),
    calculate_moving_statistics_getElem? c3series c3series.length 0 (by norm_num [c3series])]
    at hcongr
  have hw3 : windowSlice (sortedTemps c3series) 3 0 = [0, 10] := by decide
  have hw2 : windowSlice (sortedTemps c3series) c3series.length 0 = [0] := by decide
  have hv3 : listMean (windowSlice (sortedTemps c3series) 3 0) = some 5 := by
    rw [hw3]; norm_num [listMean, List.sum_cons, List.sum_nil]
  have hv2 : listMean (windowSlice (sortedTemps c3series) c3series.length 0) = some 0 := by
    rw [hw2]; norm_num [listMean, List.sum_cons, List.sum_nil]
  simp only [Option.map_some, mkBaselined, Option.some.injEq] at hcongr
  rw [hv3, hv2] at hcongr
  exact absurd (Option.some.inj hcongr) (by norm_num)

/-- Claim C3 amended: an oversized window is never an error, and once the
window size reaches 2·len−1 every window is the full series, so all such
window sizes give identical output; but a window only slightly larger
than the series length can differ from the clamped one. -/
theorem C3_amended (s : List Obs) (W : ℕ) (hW : 2 * s.length - 1 ≤ W) :
    calculate_moving_statistics s W = calculate_moving_statistics s (2 * s.length - 1) := by
  apply List.ext_getElem
  · rw [calculate_moving_statistics_length, calculate_moving_statistics_length]
  · intro i h1 h2
    have hi : i < s.length := by rwa [calculate_moving_statistics_length] at h1
    have h' : i < (sortByTime s).length := by rw [sortByTime_length]; exact hi
    have hts : i < (sortedTemps s).length := by rw [sortedTemps_length]; exact hi
    show (calculate_moving_statistics s W).get ⟨i, h1⟩
      = (calculate_moving_statistics s (2 * s.length - 1)).get ⟨i, h2⟩
    rw [calculate_moving_statistics_get s W i h' h1,
      calculate_moving_statistics_get s (2 * s.length - 1) i h' h2,
      windowSlice_of_big _ W i hts (by rw [sortedTemps_length]; exact hW),
      windowSlice_of_big _ (2 * s.length - 1) i hts (by rw [sortedTemps_length])]

/-- Witness for the amended C3 at a concrete two-row series with W = 5. -/
theorem C3_witness :
    calculate_moving_statistics c3series 5
      = calculate_moving_statistics c3series (2 * c3series.length - 1) :=
  C3_amended c3series 5 (by decide)

/-- A permutation with pairwise distinct timestamps sorts to the same list. -/
theorem sortByTime_eq_of_perm (s t : List Obs) (hperm : s.Perm t)
    (hnd : (s.map (fun o => o.timestamp)).Nodup) : sortByTime s = sortByTime t := by
  have hps : (sortByTime s).Perm s := List.perm_insertionSort tsLE s
  have hpt : (sortByTime t).Perm t := List.perm_insertionSort tsLE t
  have h1 : (sortByTime s).Perm (sortByTime t) := (hps.trans hperm).trans hpt.symm
  have hnds : ((sortByTime s).map (fun o => o.timestamp)).Nodup :=
    hnd.perm (hps.symm.map (fun o => o.timestamp))
  have hndt : ((sortByTime t).map (fun o => o.timestamp)).Nodup :=
    hnd.perm ((hperm.trans hpt.symm).map (fun o => o.timestamp))
  have hlt1 : List.Sorted tsLT (sortByTime s) := by
    have hs : List.Sorted tsLE (sortByTime s) := List.sorted_insertionSort tsLE s
    have hne : List.Pairwise (fun a b : Obs => a.timestamp ≠ b.timestamp) (sortByTime s) :=
      List.pairwise_map.mp hnds
    exact (List.Pairwise.and hs hne).imp (fun h => Nat.lt_of_le_of_ne h.1 h.2)
  have hlt2 : List.Sorted tsLT (sortByTime t) := by
    have hs : List.Sorted tsLE (sortByTime t) := List.sorted_insertionSort tsLE t
    have hne : List.Pairwise (fun a b : Obs => a.timestamp ≠ b.timestamp) (sortByTime t) :=
      List.pairwise_map.mp hndt
    exact (List.Pairwise.and hs hne).imp (fun h => Nat.lt_of_le_of_ne h.1 h.2)
  exact List.eq_of_perm_of_sorted h1 hlt1 hlt2

/-- The two tied-timestamp orders used to refute sort invariance. -/
def c4sorted : List Obs := [⟨0, "A", 0, Season.winter⟩, ⟨0, "A", 10, Season.winter⟩]

/-- A shuffle of c4sorted. -/
def c4shuffled : List Obs := [⟨0, "A", 10, Season.winter⟩, ⟨0, "A", 0, Season.winter⟩]

/-- Counterexample to claim C4 as stated: with duplicate timestamps, a
shuffled input is sorted into a different row order than the original
ordering, and the rolling output differs. -/
theorem C4_counterexample :
    c4shuffled.Perm c4sorted
    ∧ ¬ (calculate_moving_statistics c4shuffled 1 = calculate_moving_statistics c4sorted 1) := by
  constructor
  · decide
  · intro h
    have hcongr : ((calculate_moving_statistics c4shuffled 1)[0]?).map (fun r => r.rolling_mean)
        = ((calculate_moving_statistics c4sorted 1)[0]?).map (fun r => r.rolling_mean) := by
      rw [h]
    rw [calculate_moving_statistics_getElem? c4shuffled 1 0 (by norm_num [c4shuffled]),
      calculate_moving_statistics_getElem? c4sorted 1 0 (by norm_num [c4sorted])] at hcongr
    have hw1 : windowSlice (sortedTemps c4shuffled) 1 0 = [10] := by decide
    have hw2 : windowSlice (sortedTemps c4sorted) 1 0 = [0] := by decide
    have hv1 : listMean (windowSlice (sortedTemps c4shuffled) 1 0) = some 10 := by
      rw [hw1]; norm_num [listMean, List.sum_cons, List.sum_nil]
    have hv2 : listMean (windowSlice (sortedTemps c4sorted) 1 0) = some 0 := by
      rw [hw2]; norm_num [listMean, List.sum_cons, List.sum_nil]
    simp only [Option.map_some, mkBaselined, Option.some.injEq] at hcongr
    rw [hv1, hv2] at hcongr
    exact absurd (Option.some.inj hcongr) (by norm_num)

/-- Claim C4 amended: when the timestamps are pairwise distinct, the
baseline engine gives identical output on any permutation of the input,
because the internal sort then has a unique result. -/
theorem C4_amended (s t : List Obs) (W : ℕ) (hperm : s.Perm t)
    (hnd : (s.map (fun o => o.timestamp)).Nodup) :
    calculate_moving_statistics s W = calculate_moving_statistics t W := by
  have h := sortByTime_eq_of_perm s t hperm hnd
  rw [calculate_moving_statistics, calculate_moving_statistics, sortedTemps, sortedTemps, h]

/-- Witness for the amended C4 at a concrete distinct-timestamp shuffle. -/
theorem C4_witness :
    calculate_moving_statistics [⟨0, "A", 1, Season.winter⟩, ⟨1, "A", 2, Season.winter⟩] 2
      = calculate_moving_statistics [⟨1, "A", 2, Season.winter⟩, ⟨0, "A", 1, Season.winter⟩] 2 :=
  C4_amended [⟨0, "A", 1, Season.winter⟩, ⟨1, "A", 2, Season.winter⟩]
    [⟨1, "A", 2, Season.winter⟩, ⟨0, "A", 1, Season.winter⟩] 2 (by decide) (by decide)

/-- The underlying observations of the baseline output are the sorted
input rows, unchanged. -/
theorem cms_map_obs (s : List Obs) (W : ℕ) :
    (calculate_moving_statistics s W).map (fun r => r.obs) = sortByTime s := by
  rw [calculate_moving_statistics, List.map_map]
  exact List.enum_map_snd (sortByTime s)

/-- Claim C5: for every series of length N and window size W the baseline
engine returns exactly N records, one per input observation (the output
rows carry exactly the input observations, permuted into timestamp
order), and the empty series yields the empty output, not an error. -/
theorem C5_length_preservation (s : List Obs) (W : ℕ) :
    (calculate_moving_statistics s W).length = s.length
    ∧ ((calculate_moving_statistics s W).map (fun r => r.obs)).Perm s
    ∧ calculate_moving_statistics [] W = [] :=
  ⟨calculate_moving_statistics_length s W,
    by rw [cms_map_obs]; exact List.perm_insertionSort tsLE s,
    rfl⟩

/-- Counterexample row for C6: an upper bound that is undefined together
with a defined lower bound above the temperature. -/
noncomputable def c6mixed : BaselinedObs :=
  ⟨⟨0, "A", 3, Season.winter⟩, none, none, none, some ((5 : ℚ) : ℝ)⟩

/-- Counterexample to claim C6 as stated: a row whose upper bound is
NaN/undefined is still flagged anomalous, because its defined lower bound
lies above the temperature. -/
theorem C6_counterexample :
    ((detect_anomalies [c6mixed]).get ⟨0, by simp [detect_anomalies]⟩).anomaly
    ∧ ((detect_anomalies [c6mixed]).get ⟨0, by simp [detect_anomalies]⟩).upper_bound = none := by
  constructor
  · show nanGT ((3 : ℚ) : ℝ) none ∨ nanLT ((3 : ℚ) : ℝ) (some ((5 : ℚ) : ℝ))
    right
    show ((3 : ℚ) : ℝ) < ((5 : ℚ) : ℝ)
    norm_num
  · rfl

/-- Claim C6 amended: the detector flags a row exactly when its
temperature exceeds a defined upper bound or lies below a defined lower
bound (comparisons with NaN bounds are false); a row with BOTH bounds
NaN/undefined is never flagged. -/
theorem C6_amended (l : List BaselinedObs) :
    ∀ a ∈ detect_anomalies l,
      (a.anomaly ↔ ((∃ u, a.upper_bound = some u ∧ u < (a.obs.temperature : ℝ))
        ∨ (∃ v, a.lower_bound = some v ∧ (a.obs.temperature : ℝ) < v)))
      ∧ (a.upper_bound = none → a.lower_bound = none → ¬ a.anomaly) := by
  intro a ha
  rcases List.mem_map.mp ha with ⟨r, hr, rfl⟩
  cases hu : r.upper_bound <;> cases hl : r.lower_bound <;>
    simp [detect_anomalies, nanGT, nanLT, hu, hl]

/-- The flagged row used in the C6 witness. -/
noncomputable def c6row : BaselinedObs := mkBaselined ⟨0, "A", 3, Season.winter⟩ (some 3) (some 1)

/-- The output row the detector produces from c6row. -/
noncomputable def c6flagged : AnomalyObs :=
  ⟨c6row, nanGT ((c6row.obs.temperature : ℚ) : ℝ) c6row.upper_bound
    ∨ nanLT ((c6row.obs.temperature : ℚ) : ℝ) c6row.lower_bound⟩

/-- Witness for the amended C6 at a concrete one-row input. -/
theorem C6_witness :
    (c6flagged.anomaly ↔ ((∃ u, c6flagged.upper_bound = some u
        ∧ u < (c6flagged.obs.temperature : ℝ))
      ∨ (∃ v, c6flagged.lower_bound = some v ∧ (c6flagged.obs.temperature : ℝ) < v)))
    ∧ (c6flagged.upper_bound = none → c6flagged.lower_bound = none → ¬ c6flagged.anomaly) :=
  C6_amended [c6row] c6flagged (by simp [detect_anomalies, c6flagged])

/-- The winter history with mean 15 and sample std 5 used for C7. -/
def evalData : List Obs :=
  [⟨0, "A", 10, Season.winter⟩, ⟨1, "A", 15, Season.winter⟩, ⟨2, "A", 20, Season.winter⟩]

/-- The winter temperatures of evalData. -/
theorem season_data_evalData : season_data evalData Season.winter = [10, 15, 20] := by decide

/-- The winter mean of evalData is 15. -/
theorem listMean_evalData : listMean (season_data evalData Season.winter) = some 15 := by
  rw [season_data_evalData]
  norm_num [listMean, List.sum_cons, List.sum_nil]

/-- The winter sample std of evalData is 5. -/
theorem sampleStd_evalData : sampleStd (season_data evalData Season.winter) = some 5 := by
  rw [season_data_evalData]
  have hv : sampleVar [10, 15, 20] = some 25 := by
    norm_num [sampleVar, List.sum_cons, List.sum_nil, List.map_cons]
  rw [sampleStd, hv, Option.map_some']
  rw [show ((25 : ℚ) : ℝ) = (5 : ℝ) ^ 2 by norm_num]
  rw [Real.sqrt_sq (by norm_num)]

/-- Claim C7: whenever the seasonal mean m and std sd are defined, the
evaluator returns lower = m - 2·sd, upper = m + 2·sd, and is_normal is the
inclusive comparison lower ≤ reading ≤ upper; in particular with seasonal
mean 15 and std 5, reading 24.9 is normal and reading 25.1 is not. -/
theorem C7_reading_evaluation :
    (∀ (data : List Obs) (sn : Season) (r : ℝ) (m : ℚ) (sd : ℝ),
      listMean (season_data data sn) = some m →
      sampleStd (season_data data sn) = some sd →
      ∃ e, evaluateReading data sn r = Except.ok e
        ∧ e.lower_bound = some ((m : ℝ) - 2 * sd)
        ∧ e.upper_bound = some ((m : ℝ) + 2 * sd)
        ∧ (e.is_normal ↔ ((m : ℝ) - 2 * sd ≤ r ∧ r ≤ (m : ℝ) + 2 * sd)))
    ∧ (∃ e, evaluateReading evalData Season.winter (24.9 : ℝ) = Except.ok e ∧ e.is_normal)
    ∧ (∃ e, evaluateReading evalData Season.winter (25.1 : ℝ) = Except.ok e ∧ ¬ e.is_normal) := by
  have hgen : ∀ (data : List Obs) (sn : Season) (r : ℝ) (m : ℚ) (sd : ℝ),
      listMean (season_data data sn) = some m →
      sampleStd (season_data data sn) = some sd →
      ∃ e, evaluateReading data sn r = Except.ok e
        ∧ e.lower_bound = some ((m : ℝ) - 2 * sd)
        ∧ e.upper_bound = some ((m : ℝ) + 2 * sd)
        ∧ (e.is_normal ↔ ((m : ℝ) - 2 * sd ≤ r ∧ r ≤ (m : ℝ) + 2 * sd)) := by
    intro data sn r m sd hm hsd
    have hlen : 0 < (season_data data sn).length := by
      by_contra hcon
      rw [listMean, if_pos (by omega)] at hm
      exact Option.noConfusion hm
    have hmean : (season_data data sn).sum / ((season_data data sn).length : ℚ) = m := by
      rw [listMean, if_neg (by omega)] at hm
      exact Option.some.inj hm
    simp only [evaluateReading, if_pos hlen]
    refine ⟨_, rfl, ?_, ?_, ?_⟩
    · simp only [hsd, Option.map_some']
      rw [hmean]
    · simp only [hsd, Option.map_some']
      rw [hmean]
    · simp only [hsd, Option.map_some']
      rw [hmean]
      simp [chainLE]
  refine ⟨hgen, ?_, ?_⟩
  · rcases hgen evalData Season.winter (24.9 : ℝ) 15 5 listMean_evalData sampleStd_evalData
      with ⟨e, he, _, _, hn⟩
    refine ⟨e, he, hn.mpr ⟨?_, ?_⟩⟩
    · norm_num
    · norm_num
  · rcases hgen evalData Season.winter (25.1 : ℝ) 15 5 listMean_evalData sampleStd_evalData
      with ⟨e, he, _, _, hn⟩
    refine ⟨e, he, fun hnormal => ?_⟩
    have := (hn.mp hnormal).2
    norm_num at this

/-- Witness for C7 applying the general part at the concrete history. -/
theorem C7_witness :
    ∃ e, evaluateReading evalData Season.winter (12 : ℝ) = Except.ok e
      ∧ e.lower_bound = some (((15 : ℚ) : ℝ) - 2 * 5)
      ∧ e.upper_bound = some (((15 : ℚ) : ℝ) + 2 * 5)
      ∧ (e.is_normal ↔ (((15 : ℚ) : ℝ) - 2 * 5 ≤ (12 : ℝ)
          ∧ (12 : ℝ) ≤ ((15 : ℚ) : ℝ) + 2 * 5)) :=
  C7_reading_evaluation.1 evalData Season.winter (12 : ℝ) 15 5
    listMean_evalData sampleStd_evalData

/-- Claim C8: the evaluator reports NoSeasonalData, as a returned value,
exactly when the seasonal aggregation has no entry for the season (no
observation of the series carries that season label). -/
theorem C8_no_seasonal_data (data : List Obs) (sn : Season) (r : ℝ) :
    evaluateReading data sn r = Except.error FailureKind.NoSeasonalData
      ↔ seasonal_stats data sn = none := by
  cases h : season_data data sn with
  | nil => simp [evaluateReading, seasonal_stats, h]
  | cons t ts => simp [evaluateReading, seasonal_stats, h]

/-- Splitting the rows over the four season labels loses and duplicates
nothing. -/
theorem sum_filter_season_length (l : List Obs) :
    (∑ sn : Season, (l.filter (fun o => decide (o.season = sn))).length) = l.length := by
  induction l with
  | nil => simp
  | cons o t ih =>
    have hstep : ∀ sn : Season,
        ((o :: t).filter (fun o => decide (o.season = sn))).length
          = (if o.season = sn then 1 else 0)
            + (t.filter (fun o => decide (o.season = sn))).length := by
      intro sn
      rw [List.filter_cons]
      by_cases h : o.season = sn
      · simp [h, Nat.add_comm]
      · simp [h]
    rw [Finset.sum_congr rfl (fun sn _ => hstep sn), Finset.sum_add_distrib, ih,
      Finset.sum_ite_eq, if_pos (Finset.mem_univ _)]
    simp [Nat.add_comm]

/-- The count an aggregated season reports is the number of its rows. -/
theorem seasonal_stats_count (data : List Obs) (sn : Season) :
    (seasonal_stats data sn).elim 0 (fun p => p.count) = (season_data data sn).length := by
  cases h : season_data data sn with
  | nil => simp [seasonal_stats, h]
  | cons t ts => simp [seasonal_stats, h]

/-- Claim C9: the counts of the returned seasonal profiles sum to the
number of observations carrying one of the four season labels (every
observation, season being the four-valued enum), and a season with no
observations produces no entry. -/
theorem C9_seasonal_total_count (data : List Obs) :
    (∑ sn : Season, (seasonal_stats data sn).elim 0 (fun p => p.count)) = data.length
    ∧ ∀ sn : Season, (seasonal_stats data sn = none
        ↔ data.filter (fun o => decide (o.season = sn)) = []) := by
  constructor
  · rw [Finset.sum_congr rfl (fun sn _ => seasonal_stats_count data sn)]
    have hlen : ∀ sn : Season, (season_data data sn).length
        = (data.filter (fun o => decide (o.season = sn))).length := by
      intro sn
      rw [season_data, List.length_map]
    rw [Finset.sum_congr rfl (fun sn _ => hlen sn)]
    exact sum_filter_season_length data
  · intro sn
    cases h : season_data data sn with
    | nil =>
      simp only [seasonal_stats, h, true_iff]
      have hm := h
      rw [season_data] at hm
      exact List.map_eq_nil_iff.mp hm
    | cons t ts =>
      simp only [seasonal_stats, h]
      constructor
      · intro hcon
        exact absurd hcon (by simp)
      · intro hf
        rw [season_data, hf] at h
        simp at h

/-- Claim C10: both analysis steps are pure functions of their input; the
baseline engine emits the input observations (in sorted order) with every
pre-existing field unchanged next to the new columns, and the anomaly
detector carries every pre-existing column of every row over unchanged. -/
theorem C10_input_preserved (s : List Obs) (W : ℕ) (l : List BaselinedObs) :
    (calculate_moving_statistics s W).map (fun r => r.obs) = sortByTime s
    ∧ (detect_anomalies l).map (fun a => a.toBaselinedObs) = l :=
  ⟨cms_map_obs s W,
    by rw [detect_anomalies, List.map_map]; exact List.map_id l⟩

end TemperatureAnalysis
